import Mathlib

/-!
Verification development for the terminal-messaging repository.

Each definition is a shallow embedding of a function of the Python source,
with the file and line range given in its doc comment.  Time is modelled as
an explicit natural-number clock passed to the operations that read it;
transports are modelled as records of their observable effects (messages
sent, close calls).  Fallible operations return `Except` values, mirroring
the exceptions the Python code raises to its caller.
-/

namespace Void

/-- Association-list lookup, modelling Python dict access `d[k]` /
`d.get(k)` for the dictionaries the services keep keyed by terminal or
message id. -/
def alist_lookup {κ : Type} {α : Type} [DecidableEq κ] :
    List (κ × α) → κ → Option α
  | [], _ => none
  | (k2, v) :: rest, k => if k2 = k then some v else alist_lookup rest k

/-- Association-list overwrite, modelling Python dict assignment
`d[k] = v`. -/
def alist_update {κ : Type} {α : Type} [DecidableEq κ] :
    List (κ × α) → κ → α → List (κ × α)
  | [], k, v => [(k, v)]
  | (k2, v2) :: rest, k, v =>
    if k2 = k then (k, v) :: rest else (k2, v2) :: alist_update rest k v

theorem alist_lookup_update_self {κ : Type} {α : Type} [DecidableEq κ]
    (l : List (κ × α)) (k : κ) (v : α) :
    alist_lookup (alist_update l k v) k = some v := by
  induction l with
  | nil => simp [alist_update, alist_lookup]
  | cons hd tl ih =>
    obtain ⟨k2, v2⟩ := hd
    by_cases h : k2 = k
    · simp [alist_update, alist_lookup, h]
    · simp [alist_update, alist_lookup, h, ih]

/-- Python truthiness-based defaulting `x or default`: `None` and `0` both
fall through to the default.  Used by `messaging_service.py` for
`timeout or self.MESSAGE_TIMEOUT` (line 180) and
`queue_size or self.QUEUE_SIZE` (line 71). -/
def py_or (x : Option Nat) (default : Nat) : Nat :=
  match x with
  | none => default
  | some n => if n = 0 then default else n

end Void

namespace Void.Websocket

/-- Observable content of a websocket JSON message after
`ConnectionManager._prepare_message` (websocket.py 152-163) has wrapped it:
the payload plus the "type" tag (the wall-clock timestamp it also attaches
is outside the embedding). -/
structure Prepared where
  content : String
  tag : String
  deriving DecidableEq

/-- `ConnectionManager._prepare_message` (websocket.py 152-163) on a raw
string payload. -/
def prepare_message (content : String) : Prepared :=
  { content := content, tag := "message" }

/-- Re-preparation of an already prepared dict: `_prepare_message` only
refreshes the timestamp and "type" keys, so the observable content is
unchanged. -/
def reprepare (p : Prepared) : Prepared :=
  { p with tag := "message" }

/-- `ConnectionManager._buffer_message` (websocket.py 165-173): prepare and
append the message, then truncate the per-terminal buffer to its last 1000
entries (`[-1000:]`) when the length exceeds 1000. -/
def buffer_message (buf : List Prepared) (content : String) : List Prepared :=
  if (buf ++ [prepare_message content]).length > 1000 then
    (buf ++ [prepare_message content]).drop
      ((buf ++ [prepare_message content]).length - 1000)
  else buf ++ [prepare_message content]

/-- Same buffering applied to an already-prepared message
(the `_send_buffered_messages` retry path re-buffers prepared dicts). -/
def buffer_prepared (buf : List Prepared) (p : Prepared) : List Prepared :=
  if (buf ++ [reprepare p]).length > 1000 then
    (buf ++ [reprepare p]).drop ((buf ++ [reprepare p]).length - 1000)
  else buf ++ [reprepare p]

/-- The operations the source performs on one connection's entry of
`ConnectionManager.message_buffer`: an append via `_buffer_message`
(websocket.py 165-173), or a reset to the empty list (`connect` line 62,
`_send_buffered_messages` line 178, `disconnect` line 87 when absent). -/
inductive BufOp
  | append (content : String)
  | clear

/-- Apply one buffer operation. -/
def apply_buf_op (buf : List Prepared) : BufOp → List Prepared
  | .append c => buffer_message buf c
  | .clear => []

/-- Run a sequence of buffer operations. -/
def run_buf_ops (buf : List Prepared) (ops : List BufOp) : List Prepared :=
  ops.foldl apply_buf_op buf

theorem buffer_message_length_le (buf : List Prepared) (c : String)
    (_h : buf.length ≤ 1000) : (buffer_message buf c).length ≤ 1000 := by
  unfold buffer_message
  by_cases hlen : (buf ++ [prepare_message c]).length > 1000
  · rw [if_pos hlen]
    simp only [List.length_drop]
    omega
  · rw [if_neg hlen]
    omega

theorem run_buf_ops_length_le (ops : List BufOp) (buf : List Prepared)
    (h : buf.length ≤ 1000) : (run_buf_ops buf ops).length ≤ 1000 := by
  induction ops generalizing buf with
  | nil => simpa [run_buf_ops] using h
  | cons op rest ih =>
    have hstep : (apply_buf_op buf op).length ≤ 1000 := by
      cases op with
      | append c => exact buffer_message_length_le buf c h
      | clear => simp [apply_buf_op]
    simpa [run_buf_ops, List.foldl_cons] using ih (apply_buf_op buf op) hstep

theorem buffer_message_evicts_oldest (b : List Prepared) (c : String)
    (hb : b.length = 1000) :
    buffer_message b c = b.drop 1 ++ [prepare_message c] := by
  unfold buffer_message
  have hlen : (b ++ [prepare_message c]).length = 1001 := by
    simp [hb]
  rw [if_pos (by omega), hlen]
  have h1 : (1001 : Nat) - 1000 = 1 := by omega
  rw [h1]
  rw [List.drop_append_of_le_length (by omega)]

/-- Claim C7: over every sequence of buffer operations starting from a
buffer within capacity, the connection's pending message buffer never holds
more than 1000 entries, and when an append would exceed capacity the oldest
entry is evicted (`_buffer_message`, websocket.py 165-173); the operation is
a total function, so it never blocks or errors. -/
theorem pending_buffer_capacity_bounded (ops : List BufOp)
    (buf : List Prepared) (b : List Prepared) (c : String)
    (h : buf.length ≤ 1000) (hb : b.length = 1000) :
    (run_buf_ops buf ops).length ≤ 1000 ∧
      buffer_message b c = b.drop 1 ++ [prepare_message c] :=
  ⟨run_buf_ops_length_le ops buf h, buffer_message_evicts_oldest b c hb⟩

theorem pending_buffer_capacity_bounded_witness :
    ([] : List Prepared).length ≤ 1000 ∧
      (List.replicate 1000 (prepare_message "old")).length = 1000 ∧
      ((run_buf_ops [] [BufOp.append "a"]).length ≤ 1000 ∧
        buffer_message (List.replicate 1000 (prepare_message "old")) "new" =
          (List.replicate 1000 (prepare_message "old")).drop 1 ++
            [prepare_message "new"]) :=
  ⟨Nat.zero_le 1000, List.length_replicate 1000 (prepare_message "old"),
    pending_buffer_capacity_bounded [BufOp.append "a"] []
      (List.replicate 1000 (prepare_message "old")) "new" (Nat.zero_le 1000)
      (List.length_replicate 1000 (prepare_message "old"))⟩

/-- Lifecycle states of the transport handle (`WebSocketState`): we only
need connected/disconnected. -/
inductive ConnState0
  | connected
  | disconnected
  deriving DecidableEq

/-- State of the underlying websocket transport as the manager observes it:
the `client_state` flag it checks before closing (websocket.py 80), a count
of `close` invocations (to observe close idempotence), and the JSON
messages sent over it, in order. -/
structure Ws where
  client_state : ConnState0
  close_calls : Nat
  sent : List Prepared
  deriving DecidableEq

/-- `websocket.close(code, reason)`: marks the transport disconnected and
records the call. -/
def ws_close (w : Ws) : Ws :=
  { w with client_state := .disconnected, close_calls := w.close_calls + 1 }

/-- `ws.send_json(data)`: records the message on the transport. -/
def ws_send (w : Ws) (p : Prepared) : Ws :=
  { w with sent := w.sent ++ [p] }

/-- `ConnectionState` (websocket.py 11-15). -/
inductive ConnState
  | connected
  | disconnected
  | error
  | reconnecting
  deriving DecidableEq

/-- `ConnectionInfo` (websocket.py 18-25); metadata omitted. -/
structure ConnInfo where
  ws : Ws
  state : ConnState
  last_heartbeat : Nat
  connection_time : Nat
  retry_count : Nat
  deriving DecidableEq

/-- The mutable state of `ConnectionManager` (websocket.py 34-38):
`active_connections` and `message_buffer`, both keyed by terminal id. -/
structure CMState where
  active_connections : List (String × ConnInfo)
  message_buffer : List (String × List Prepared)
  deriving DecidableEq

/-- `ConnectionManager.send_message(terminal_id, message, retry)`
(websocket.py 93-127) on an already prepared payload, as used by the
buffered-flush path: if the terminal has no live Connected connection the
message is (re)buffered when `retry` is set and the send reports failure;
otherwise it is sent over the transport. -/
def cm_send_prepared (st : CMState) (tid : String) (p : Prepared)
    (retry : Bool) : CMState × Bool :=
  match alist_lookup st.active_connections tid with
  | none =>
    if retry then
      let old := (alist_lookup st.message_buffer tid).getD []
      ({ st with message_buffer :=
          alist_update st.message_buffer tid (buffer_prepared old p) }, false)
    else (st, false)
  | some conn =>
    if conn.state = ConnState.connected then
      let conn2 : ConnInfo := { conn with ws := ws_send conn.ws (reprepare p) }
      ({ st with active_connections :=
          alist_update st.active_connections tid conn2 }, true)
    else
      if retry then
        let old := (alist_lookup st.message_buffer tid).getD []
        ({ st with message_buffer :=
            alist_update st.message_buffer tid (buffer_prepared old p) }, false)
      else (st, false)

/-- `ConnectionManager._send_buffered_messages` (websocket.py 175-181):
when the terminal has a non-empty buffer, take the buffered messages, reset
the buffer entry to `[]`, and re-send each through `send_message` with
retry enabled. -/
def send_buffered_messages (st : CMState) (tid : String) : CMState :=
  match alist_lookup st.message_buffer tid with
  | none => st
  | some [] => st
  | some (m :: rest) =>
    let st2 : CMState :=
      { st with message_buffer := alist_update st.message_buffer tid [] }
    (m :: rest).foldl (fun s p => (cm_send_prepared s tid p true).1) st2

/-- `ConnectionManager.connect` (websocket.py 44-74): accept the transport,
record a fresh Connected `ConnectionInfo`, set the terminal's
`message_buffer` entry to `[]` (line 62), then run
`_send_buffered_messages` (line 67). -/
def cm_connect (st : CMState) (tid : String) (w : Ws) (now : Nat) : CMState :=
  let info : ConnInfo :=
    { ws := w, state := .connected, last_heartbeat := now,
      connection_time := now, retry_count := 0 }
  let st2 : CMState :=
    { active_connections := alist_update st.active_connections tid info,
      message_buffer := alist_update st.message_buffer tid [] }
  send_buffered_messages st2 tid

/-- `ConnectionManager.disconnect` (websocket.py 76-91): when the terminal
has a connection, close the transport only if its client state is not
already disconnected, set the connection state to Disconnected, record
`last_heartbeat := now`, and ensure a `message_buffer` entry exists.  All
exceptions are caught and logged (line 90-91), so the operation never
raises to its caller. -/
def cm_disconnect (st : CMState) (tid : String) (now : Nat) : CMState :=
  match alist_lookup st.active_connections tid with
  | none => st
  | some conn =>
    let conn2 : ConnInfo :=
      if conn.ws.client_state = ConnState0.disconnected then conn
      else { conn with ws := ws_close conn.ws }
    let conn3 : ConnInfo :=
      { conn2 with state := .disconnected, last_heartbeat := now }
    let st2 : CMState :=
      { st with active_connections :=
          alist_update st.active_connections tid conn3 }
    if (alist_lookup st2.message_buffer tid).isSome then st2
    else { st2 with message_buffer := alist_update st2.message_buffer tid [] }

/-- Observable connection lifecycle state of a terminal. -/
def conn_state (st : CMState) (tid : String) : Option ConnState :=
  (alist_lookup st.active_connections tid).map (fun c => c.state)

/-- Number of times the terminal's transport has been closed. -/
def conn_close_calls (st : CMState) (tid : String) : Option Nat :=
  (alist_lookup st.active_connections tid).map (fun c => c.ws.close_calls)

/-- Messages actually sent over the terminal's transport. -/
def conn_sent (st : CMState) (tid : String) : Option (List Prepared) :=
  (alist_lookup st.active_connections tid).map (fun c => c.ws.sent)

/-- The `ConnectionInfo` that `cm_disconnect` stores for a present
terminal: transport closed unless its client state was already
disconnected, state set to Disconnected, heartbeat refreshed. -/
def disconnected_info (conn : ConnInfo) (now : Nat) : ConnInfo :=
  if conn.ws.client_state = ConnState0.disconnected then
    { conn with state := .disconnected, last_heartbeat := now }
  else
    { conn with
      ws := ws_close conn.ws
      state := .disconnected
      last_heartbeat := now }

theorem cm_disconnect_lookup (st : CMState) (tid : String) (now : Nat)
    (conn : ConnInfo)
    (hconn : alist_lookup st.active_connections tid = some conn) :
    alist_lookup (cm_disconnect st tid now).active_connections tid =
      some (disconnected_info conn now) := by
  by_cases hws : conn.ws.client_state = ConnState0.disconnected <;>
    simp only [cm_disconnect, hconn, hws, disconnected_info, if_true, if_false,
      ite_true, ite_false] <;>
    split <;>
    simp [alist_lookup_update_self]

theorem disconnected_info_state (conn : ConnInfo) (now : Nat) :
    (disconnected_info conn now).state = ConnState.disconnected := by
  by_cases hws : conn.ws.client_state = ConnState0.disconnected <;>
    simp [disconnected_info, hws]

theorem disconnected_info_ws (conn : ConnInfo) (now : Nat) :
    (disconnected_info conn now).ws.client_state = ConnState0.disconnected := by
  by_cases hws : conn.ws.client_state = ConnState0.disconnected <;>
    simp [disconnected_info, hws, ws_close]

theorem disconnected_info_close_calls (conn : ConnInfo) (now : Nat)
    (h : conn.ws.client_state = ConnState0.disconnected) :
    (disconnected_info conn now).ws.close_calls = conn.ws.close_calls := by
  simp [disconnected_info, h]

/-- Claim C8: for a terminal with a connection entry, calling `disconnect`
twice in succession leaves the same observable connection state
(Disconnected) as calling it once, and the second call does not close the
transport again (close is a no-op when the client state is already
disconnected, websocket.py 80-81); the body catches every exception
(websocket.py 90-91) and the model is total, so the second call never
errors. -/
theorem disconnect_idempotent (st : CMState) (tid : String) (n1 n2 : Nat)
    (h : (alist_lookup st.active_connections tid).isSome = true) :
    conn_state (cm_disconnect st tid n1) tid = some ConnState.disconnected ∧
      conn_state (cm_disconnect (cm_disconnect st tid n1) tid n2) tid =
        some ConnState.disconnected ∧
      conn_close_calls (cm_disconnect (cm_disconnect st tid n1) tid n2) tid =
        conn_close_calls (cm_disconnect st tid n1) tid := by
  obtain ⟨conn, hconn⟩ := Option.isSome_iff_exists.mp h
  have h1 := cm_disconnect_lookup st tid n1 conn hconn
  have h2 := cm_disconnect_lookup (cm_disconnect st tid n1) tid n2
    (disconnected_info conn n1) h1
  refine ⟨?_, ?_, ?_⟩
  · simp [conn_state, h1, disconnected_info_state]
  · simp [conn_state, h2, disconnected_info_state]
  · simp [conn_close_calls, h1, h2]
    exact disconnected_info_close_calls (disconnected_info conn n1) n2
      (disconnected_info_ws conn n1)

/-- Terminal id used in the concrete scenarios below. -/
def tA : String := "term-a"

/-- The five messages buffered for `tA` while it was disconnected. -/
def demo_buffer : List Prepared :=
  [prepare_message ("m1"), prepare_message ("m2"), prepare_message ("m3"),
    prepare_message ("m4"), prepare_message ("m5")]

/-- Manager state in which `tA` has no live connection and five messages
sit in its pending buffer. -/
def demo_state : CMState :=
  { active_connections := [], message_buffer := [(tA, demo_buffer)] }

/-- A fresh transport for the reconnect. -/
def demo_ws : Ws :=
  { client_state := .connected, close_calls := 0, sent := [] }

/-- Claim C2, failing input: reconnecting `tA` via `connect` after five
messages were buffered for it.  `connect` overwrites
`message_buffer[terminal_id]` with `[]` (websocket.py line 62) before
`_send_buffered_messages` runs (line 67), so the flush finds an empty
buffer: zero messages are re-offered over the transport and the five
buffered messages are dropped, contradicting the documented reconnect
flush. -/
theorem connect_drops_pending_buffer :
    conn_sent (cm_connect demo_state tA demo_ws 7) tA = some [] ∧
      alist_lookup (cm_connect demo_state tA demo_ws 7).message_buffer tA =
        some [] ∧
      demo_buffer.length = 5 := by
  decide

/-- A live Connected connection for `tA` over a fresh transport. -/
def demo_conn : ConnInfo :=
  { ws := demo_ws
    state := .connected
    last_heartbeat := 0
    connection_time := 0
    retry_count := 0 }

/-- Manager state in which `tA` is connected. -/
def demo_cm : CMState :=
  { active_connections := [(tA, demo_conn)], message_buffer := [] }

theorem disconnect_idempotent_witness :
    ((alist_lookup demo_cm.active_connections tA).isSome = true) ∧
      (conn_state (cm_disconnect demo_cm tA 3) tA =
          some ConnState.disconnected ∧
        conn_state (cm_disconnect (cm_disconnect demo_cm tA 3) tA 4) tA =
          some ConnState.disconnected ∧
        conn_close_calls (cm_disconnect (cm_disconnect demo_cm tA 3) tA 4) tA =
          conn_close_calls (cm_disconnect demo_cm tA 3) tA) :=
  ⟨by decide, disconnect_idempotent demo_cm tA 3 4 (by decide)⟩

end Void.Websocket

namespace Void.Terminal

/-- `AITerminal.MAX_HISTORY_SIZE` (terminal.py 44). -/
def max_history_size : Nat := 1000

/-- A conversation-history entry (`Message` dataclass, terminal.py 17-24);
timestamps and metadata are outside the embedding. -/
structure TMessage where
  content : String
  sender_id : String
  conversation_id : String
  deriving DecidableEq

/-- `AITerminal._add_to_history` (terminal.py 144-147): append the message,
then, when the history length exceeds `MAX_HISTORY_SIZE`, keep only the
last `MAX_HISTORY_SIZE` entries (`[-MAX_HISTORY_SIZE:]`). -/
def add_to_history (h : List TMessage) (m : TMessage) : List TMessage :=
  if (h ++ [m]).length > max_history_size then
    (h ++ [m]).drop ((h ++ [m]).length - max_history_size)
  else h ++ [m]

/-- Effect on `conversation_history` of a sequence of
`send_message`/`receive_message` operations: each appends the messages it
handles through `_add_to_history` (terminal.py 99, 103). -/
def run_history (h : List TMessage) (msgs : List TMessage) : List TMessage :=
  msgs.foldl add_to_history h

theorem add_to_history_length_le (h : List TMessage) (m : TMessage)
    (_hh : h.length ≤ max_history_size) :
    (add_to_history h m).length ≤ max_history_size := by
  unfold add_to_history max_history_size
  by_cases hlen : (h ++ [m]).length > 1000
  · rw [if_pos hlen]
    simp only [List.length_drop]
    omega
  · rw [if_neg hlen]
    omega

theorem run_history_length_le (msgs : List TMessage) (h : List TMessage)
    (hh : h.length ≤ max_history_size) :
    (run_history h msgs).length ≤ max_history_size := by
  induction msgs generalizing h with
  | nil => simpa [run_history] using hh
  | cons m rest ih =>
    have hstep := add_to_history_length_le h m hh
    simpa [run_history, List.foldl_cons] using ih (add_to_history h m) hstep

theorem add_to_history_truncates (h : List TMessage) (m : TMessage)
    (hh : h.length = max_history_size) :
    add_to_history h m = h.drop 1 ++ [m] := by
  unfold add_to_history max_history_size
  unfold max_history_size at hh
  have hlen : (h ++ [m]).length = 1001 := by
    simp [hh]
  rw [if_pos (by omega), hlen]
  have h1 : (1001 : Nat) - 1000 = 1 := by omega
  rw [h1]
  rw [List.drop_append_of_le_length (by omega)]

/-- Claim C10: over every sequence of send/receive operations starting from
a history within the bound, `conversation_history` never holds more than
`MAX_HISTORY_SIZE = 1000` messages, and at capacity each append truncates
the history to the most recent 1000 entries (`_add_to_history`,
terminal.py 144-147). -/
theorem conversation_history_bounded (msgs : List TMessage)
    (h0 : List TMessage) (h1 : List TMessage) (m : TMessage)
    (hh : h0.length ≤ max_history_size) (hcap : h1.length = max_history_size) :
    (run_history h0 msgs).length ≤ max_history_size ∧
      add_to_history h1 m = h1.drop 1 ++ [m] :=
  ⟨run_history_length_le msgs h0 hh, add_to_history_truncates h1 m hcap⟩

/-- A concrete history message. -/
def demo_tmsg : TMessage :=
  { content := "ping", sender_id := "t1", conversation_id := "c0" }

theorem conversation_history_bounded_witness :
    ([] : List TMessage).length ≤ max_history_size ∧
      (List.replicate max_history_size demo_tmsg).length = max_history_size ∧
      ((run_history [] [demo_tmsg]).length ≤ max_history_size ∧
        add_to_history (List.replicate max_history_size demo_tmsg) demo_tmsg =
          (List.replicate max_history_size demo_tmsg).drop 1 ++ [demo_tmsg]) :=
  ⟨Nat.zero_le max_history_size,
    List.length_replicate max_history_size demo_tmsg,
    conversation_history_bounded [demo_tmsg] []
      (List.replicate max_history_size demo_tmsg) demo_tmsg
      (Nat.zero_le max_history_size)
      (List.length_replicate max_history_size demo_tmsg)⟩

end Void.Terminal

namespace Void.ConvService

/-- `ConversationService.RATE_LIMIT_WINDOW` (conversation_service.py 31),
as a span of the integer clock. -/
def rate_limit_window : Int := 60

/-- `ConversationService.MAX_MESSAGES_PER_WINDOW`
(conversation_service.py 32). -/
def max_messages_per_window : Nat := 100

/-- Outcome of one `add_message` call with respect to rate limiting:
either it proceeds, or `_check_rate_limit` raises
`ConversationRateLimitError` (conversation_service.py 349-350). -/
inductive RLOutcome
  | allowed
  | rate_limited
  deriving DecidableEq

/-- The purge step of `_check_rate_limit` (conversation_service.py
340-347): keep only timestamps strictly newer than `now - window`. -/
def purge_window (now : Int) (l : List Int) : List Int :=
  l.filter (fun ts => now - rate_limit_window < ts)

/-- One `add_message` call as it touches the sender's rate-limit state
(conversation_service.py 141-189): `_check_rate_limit` purges the list and
raises when the purged count is already at the maximum (lines 335-350);
otherwise the message is processed and `_update_rate_limit` appends the
current timestamp (lines 182, 352-354).  The call is assumed to succeed
apart from rate limiting (existing active conversation, no database
error). -/
def add_message_rl (l : List Int) (now : Int) : RLOutcome × List Int :=
  let p := purge_window now l
  if max_messages_per_window ≤ p.length then (.rate_limited, p)
  else (.allowed, p ++ [now])

/-- Run a sequence of `add_message` calls at the given times, threading the
sender's rate-limit timestamp list, and collect the outcomes. -/
def run_calls (l : List Int) : List Int → List RLOutcome
  | [] => []
  | t :: ts => (add_message_rl l t).1 :: run_calls (add_message_rl l t).2 ts

theorem purge_window_replicate (t : Int) (k : Nat) :
    purge_window t (List.replicate k t) = List.replicate k t := by
  apply List.filter_eq_self.mpr
  intro a ha
  have h := List.eq_of_mem_replicate ha
  subst h
  simp only [decide_eq_true_eq]
  unfold rate_limit_window
  omega

theorem run_calls_replicate (t : Int) (n : Nat) :
    ∀ k : Nat, k + n = 101 → k ≤ 100 →
      run_calls (List.replicate k t) (List.replicate n t) =
        List.replicate (100 - k) RLOutcome.allowed ++ [RLOutcome.rate_limited] := by
  induction n with
  | zero => intro k hkn _; omega
  | succ n ih =>
    intro k hkn hk
    rw [List.replicate_succ t n]
    by_cases hcase : k = 100
    · subst hcase
      have hn : n = 0 := by omega
      subst hn
      have hstep :
          add_message_rl (List.replicate 100 t) t =
            (RLOutcome.rate_limited, List.replicate 100 t) := by
        simp only [add_message_rl, purge_window_replicate,
          List.length_replicate, max_messages_per_window]
        rw [if_pos (by omega)]
      simp only [run_calls, hstep, List.replicate_zero]
      simp
    · have hklt : k < 100 := by omega
      have hstep :
          add_message_rl (List.replicate k t) t =
            (RLOutcome.allowed, List.replicate (k + 1) t) := by
        simp only [add_message_rl, purge_window_replicate,
          List.length_replicate, max_messages_per_window]
        rw [if_neg (by omega)]
        rw [← List.replicate_succ' k t]
      have hrec := ih (k + 1) (by omega) (by omega)
      simp only [run_calls, hstep]
      rw [hrec]
      have h100 : 100 - k = (100 - (k + 1)) + 1 := by omega
      rw [h100, List.replicate_succ]
      simp

/-- Claim C5: for any time `t` inside a fixed window, 101 `add_message`
calls from one sender at clock `t` produce exactly one
`ConversationRateLimitError`, on the 101st call; the first 100 calls pass
the rate-limit check (`_check_rate_limit` / `_update_rate_limit`,
conversation_service.py 335-354). -/
theorem rate_limit_101st_rejected (t : Int) :
    run_calls [] (List.replicate 101 t) =
      List.replicate 100 RLOutcome.allowed ++ [RLOutcome.rate_limited] := by
  have h := run_calls_replicate t 101 0 (by omega) (by omega)
  simpa using h

end Void.ConvService

namespace Void.Messaging

/-- `MessagePriority` (messaging_service.py 14-17). -/
inductive MessagePriority
  | high
  | normal
  | low
  deriving DecidableEq

/-- `priority.value` as stored on the queued message
(messaging_service.py 15-17, 171). -/
def MessagePriority.toVal : MessagePriority → Nat
  | .high => 0
  | .normal => 1
  | .low => 2

/-- `MessagePriority(value)` as used by the retry resend
(messaging_service.py 363). -/
def priority_of_val (v : Nat) : MessagePriority :=
  if v = 0 then .high else if v = 1 then .normal else .low

/-- `MessageState` (messaging_service.py 20-24). -/
inductive MessageState
  | pending
  | delivered
  | failed
  | expired
  deriving DecidableEq

/-- The message record queued for delivery (messaging_service.py 164-173);
the uuid is modelled as the value of a fresh-id counter, and timestamps
and metadata are outside the embedding. -/
structure Message where
  id : Nat
  content : String
  sender_id : String
  recipient_id : String
  priority : Nat
  deriving DecidableEq

/-- One entry of `MessagingService.message_states`
(messaging_service.py 176-181). -/
structure MsgState where
  state : MessageState
  attempts : Nat
  created_at : Nat
  timeout : Nat
  deriving DecidableEq

/-- Modelled from the spec: the `MetricsCollector` imported from
`src/utils/metrics.py` is not in the source snapshot; per the spec the
metrics sink is fire-and-forget counters/gauges that never affect control
flow, so `increment(name)` is modelled as appending the counter name to a
log. -/
def metrics_increment (metrics : List String) (name : String) : List String :=
  metrics ++ [name]

/-- `MessagingService.QUEUE_SIZE` (messaging_service.py 32). -/
def queue_size_default : Nat := 1000

/-- `MessagingService.MESSAGE_TIMEOUT` (messaging_service.py 33). -/
def message_timeout_default : Nat := 30

/-- `MessagingService.MAX_RETRY_ATTEMPTS` (messaging_service.py 34). -/
def max_retry_attempts : Nat := 3

/-- `MessagingService.BATCH_SIZE` (messaging_service.py 35). -/
def batch_size : Nat := 50

/-- The mutable state of `MessagingService` (messaging_service.py 37-44)
touched by the embedded operations: registered terminals, per-terminal
FIFO queues paired with their `maxsize`, per-message delivery state,
active connections, emitted counter metrics, and the uuid supply. -/
structure SvcState where
  terminals : List String
  message_queues : List (String × (Nat × List Message))
  message_states : List (Nat × MsgState)
  active_connections : List String
  metrics : List String
  next_id : Nat
  deriving DecidableEq

/-- `MessagingService.register_terminal` (messaging_service.py 50-85):
rejects a duplicate registration, otherwise records the terminal, creates
a plain FIFO `asyncio.Queue(maxsize=queue_size or QUEUE_SIZE)` (lines
70-72 — note: not a priority queue), and marks the connection active. -/
def register_terminal (st : SvcState) (tid : String)
    (queue_size : Option Nat) : SvcState × Except String Unit :=
  if st.terminals.contains tid then
    (st, .error ("Terminal registration failed: Terminal already registered"))
  else
    ({ st with
        terminals := st.terminals ++ [tid]
        message_queues :=
          alist_update st.message_queues tid
            (py_or queue_size queue_size_default, [])
        active_connections := st.active_connections ++ [tid]
        metrics := metrics_increment st.metrics ("terminals.registered") },
      Except.ok ())

/-- `MessagingService.send_message` (messaging_service.py 134-206) at
clock `now`.  A state entry is created first (lines 176-181, with
`timeout or MESSAGE_TIMEOUT` coercing both `None` and `0` to 30).  When
the recipient queue is below `maxsize`, `put` completes and the id is
returned.  When the queue is full, `put` blocks, so the surrounding
`asyncio.wait_for(..., timeout=1.0)` raises `TimeoutError` (the
`QueueFull` branch at line 192 is dead — `Queue.put` never raises it);
the branch increments the queue-timeout metric and then calls
`self._handle_queue_timeout(message)` (line 201), a method
`MessagingService` does not define, so an `AttributeError` is raised
before `return message_id` and the outer handler (lines 204-206) wraps it
into a `MessagingError` raised to the caller. -/
def send_message (st : SvcState) (sender recipient content : String)
    (priority : MessagePriority) (timeout : Option Nat) (now : Nat) :
    SvcState × Except String Nat :=
  if st.active_connections.contains recipient = false then
    (st, .error ("Message sending failed: Recipient terminal not connected"))
  else
    let mid := st.next_id
    let msg : Message :=
      { id := mid, content := content, sender_id := sender,
        recipient_id := recipient, priority := priority.toVal }
    let entry : MsgState :=
      { state := .pending, attempts := 0, created_at := now,
        timeout := py_or timeout message_timeout_default }
    let st1 : SvcState :=
      { st with
          next_id := mid + 1
          message_states := alist_update st.message_states mid entry }
    match alist_lookup st1.message_queues recipient with
    | none => (st1, .error ("Message sending failed: KeyError"))
    | some (maxsize, q) =>
      if q.length < maxsize then
        ({ st1 with
            message_queues :=
              alist_update st1.message_queues recipient (maxsize, q ++ [msg])
            metrics := metrics_increment st1.metrics ("messages.queued") },
          Except.ok mid)
      else
        ({ st1 with
            metrics :=
              metrics_increment st1.metrics ("messages.queue_timeout") },
          Except.error
            ("Message sending failed: MessagingService object has no attribute handle queue timeout"))

/-- `MessagingService._is_message_expired` (messaging_service.py 337-339):
elapsed time strictly greater than the stored timeout. -/
def is_message_expired (s : MsgState) (now : Nat) : Bool :=
  s.timeout < now - s.created_at

/-- `MessagingService._handle_failed_message` (messaging_service.py
347-365): increment the entry's attempts; at `MAX_RETRY_ATTEMPTS` mark the
entry Failed and count the metric; otherwise sleep `2 ** attempts` (real
time, outside the embedding) and re-send the content through
`send_message`, which mints a fresh uuid and a fresh state entry whose
`attempts` restarts at 0. -/
def handle_failed_message (st : SvcState) (m : Message) (now : Nat) :
    SvcState :=
  match alist_lookup st.message_states m.id with
  | none => st
  | some s =>
    let s2 : MsgState := { s with attempts := s.attempts + 1 }
    if max_retry_attempts ≤ s2.attempts then
      let s3 : MsgState := { s2 with state := .failed }
      { st with
          message_states := alist_update st.message_states m.id s3
          metrics := metrics_increment st.metrics ("messages.failed") }
    else
      let st2 : SvcState :=
        { st with message_states := alist_update st.message_states m.id s2 }
      (send_message st2 m.sender_id m.recipient_id m.content
        (priority_of_val m.priority) none now).1

/-- Per-message body of `MessagingService._process_message_batch`
(messaging_service.py 282-302): messages without a state entry are
skipped; expired messages reach `self._handle_expired_message` (line 291)
and live ones reach `self._process_high_priority_message` /
`self._process_normal_message` (lines 296, 298) — none of these methods
exists on `MessagingService`, so both paths raise `AttributeError`, which
the per-message handler (lines 300-302) funnels into
`_handle_failed_message`. -/
def process_message (st : SvcState) (m : Message) (now : Nat) : SvcState :=
  match alist_lookup st.message_states m.id with
  | none => st
  | some s =>
    if is_message_expired s now then handle_failed_message st m now
    else handle_failed_message st m now

/-- The batch-collection loop of `MessagingService._process_messages`
(messaging_service.py 266-271): pop with `get_nowait` (FIFO) until the
batch holds `BATCH_SIZE` messages or the queue is empty; returns the
collected batch and the remaining queue. -/
def collect_batch : Nat → List Message → List Message × List Message
  | _, [] => ([], [])
  | 0, q => ([], q)
  | k + 1, m :: q =>
    let r := collect_batch k q
    (m :: r.1, r.2)

/-- One pass of the delivery worker `MessagingService._process_messages`
(messaging_service.py 258-280) for one terminal: drain a FIFO batch, then
process each collected message in order. -/
def worker_step (st : SvcState) (tid : String) (now : Nat) : SvcState :=
  match alist_lookup st.message_queues tid with
  | none => st
  | some (maxsize, q) =>
    let r := collect_batch batch_size q
    let st2 : SvcState :=
      { st with
          message_queues := alist_update st.message_queues tid (maxsize, r.2) }
    r.1.foldl (fun s m => process_message s m now) st2

theorem collect_batch_take_drop (k : Nat) (q : List Message) :
    collect_batch k q = (q.take k, q.drop k) := by
  induction q generalizing k with
  | nil => cases k <;> simp [collect_batch]
  | cons m rest ih =>
    cases k with
    | zero => simp [collect_batch]
    | succ k2 => simp [collect_batch, ih]

/-- The error payload of an `Except` result, `none` on success. -/
def except_error {ε : Type} {α : Type} : Except ε α → Option ε
  | .error e => some e
  | .ok _ => none

/-- A Pending `message_states` entry with the given attempts, creation
time and timeout, used to state concrete evaluations. -/
def pending_entry (attempts created_at timeout : Nat) : MsgState :=
  { state := .pending, attempts := attempts, created_at := created_at,
    timeout := timeout }

/-- Claim C1 (amended): the per-recipient delivery queue is a plain FIFO
`asyncio.Queue` (messaging_service.py 70-72), so draining yields envelopes
exactly in arrival order regardless of priority: within equal priority
arrival order is preserved, but High envelopes are not drained ahead of
earlier Normal or Low ones. -/
theorem drain_is_fifo (q : List Message) :
    (collect_batch batch_size q).1 = q.take batch_size ∧
      (collect_batch batch_size q).2 = q.drop batch_size := by
  simp [collect_batch_take_drop]

/-- Sender id of the concrete messaging scenarios. -/
def sTid : String := "sender-1"

/-- Recipient id of the concrete messaging scenarios. -/
def rTid : String := "recv-1"

/-- Fresh service state (no terminals, uuid counter at 0). -/
def svc0 : SvcState :=
  { terminals := [], message_queues := [], message_states := [],
    active_connections := [], metrics := [], next_id := 0 }

/-- State after registering the recipient (default capacity 1000) and
sending four messages with priorities High, Normal, Normal, High, in that
order, at clock 0. -/
def svc_hnnh : SvcState :=
  let st1 := (register_terminal svc0 rTid none).1
  let st2 := (send_message st1 sTid rTid ("m1") .high none 0).1
  let st3 := (send_message st2 sTid rTid ("m2") .normal none 0).1
  let st4 := (send_message st3 sTid rTid ("m3") .normal none 0).1
  (send_message st4 sTid rTid ("m4") .high none 0).1

/-- Claim C1, counterexample: after sending High, Normal, Normal, High to
a recipient with available capacity, the batch the delivery worker drains
carries the priority values [0, 1, 1, 0] — arrival order — and not the
[0, 0, 1, 1] (High, High, Normal, Normal) the claim requires. -/
theorem drain_order_not_priority_ordered :
    ((alist_lookup svc_hnnh.message_queues rTid).map
        (fun p => (collect_batch batch_size p.2).1.map
          (fun m => m.priority))) = some [0, 1, 1, 0] ∧
      some [0, 1, 1, 0] ≠
        some [MessagePriority.high.toVal, MessagePriority.high.toVal,
          MessagePriority.normal.toVal, MessagePriority.normal.toVal] := by
  decide

/-- State with the recipient registered with queue capacity 1 and one
message already queued, so the delivery queue is full. -/
def svc_full : SvcState :=
  let st1 := (register_terminal svc0 rTid (some 1)).1
  (send_message st1 sTid rTid ("first") .normal none 0).1

/-- Claim C3, failing-input evaluation: `send_message` to a registered
recipient whose delivery queue is full raises `MessagingError` to the
caller instead of returning the message id — the nonexistent
`_handle_queue_timeout` handler aborts the degrade path with an
`AttributeError` (messaging_service.py 198-206), and `MessagingService`
has no pending buffer to divert to.  The message-state entry and the
queue-timeout metric from earlier in the call do persist. -/
theorem send_to_full_queue_raises :
    except_error (send_message svc_full sTid rTid ("second") .normal none 0).2 =
      some
        ("Message sending failed: MessagingService object has no attribute handle queue timeout") ∧
      alist_lookup
          (send_message svc_full sTid rTid ("second") .normal none 0).1.message_states
          1 =
        some (pending_entry 0 0 30) ∧
      (send_message svc_full sTid rTid ("second") .normal none 0).1.metrics.getLast? =
        some ("messages.queue_timeout") := by
  decide

/-- State after registering the recipient, sending one Normal message at
clock 0, and letting the delivery worker run a failing pass at clocks 0, 1
and 2 — three consecutive delivery failures for the message's content. -/
def svc_retry : SvcState :=
  let st1 := (register_terminal svc0 rTid none).1
  let st2 := (send_message st1 sTid rTid ("hello") .normal none 0).1
  let st3 := worker_step st2 rTid 0
  let st4 := worker_step st3 rTid 1
  worker_step st4 rTid 2

/-- Claim C4, failing-input evaluation: after three consecutive delivery
failures, the original envelope (id 0) is still Pending with
`attempts = 1` — not Failed — because `_handle_failed_message` re-sends
the content under a fresh uuid whose state entry restarts at
`attempts = 0` (messaging_service.py 356-365); ids 1 and 2 likewise sit at
a single attempt, no envelope is Failed, and a fourth delivery attempt
(id 3) is already waiting in the recipient's queue. -/
theorem retry_mints_fresh_envelope_each_failure :
    alist_lookup svc_retry.message_states 0 = some (pending_entry 1 0 30) ∧
      alist_lookup svc_retry.message_states 1 = some (pending_entry 1 0 30) ∧
      alist_lookup svc_retry.message_states 2 = some (pending_entry 1 1 30) ∧
      alist_lookup svc_retry.message_states 3 = some (pending_entry 0 2 30) ∧
      (alist_lookup svc_retry.message_queues rTid).map
          (fun p => p.2.map (fun m => m.id)) = some [3] := by
  decide

/-- Events that can touch one envelope's `message_states` entry when its
recipient never consumes it: a delivery-worker failure pass (the effect of
`_handle_failed_message` on this entry, messaging_service.py 349-358), a
sweep of the periodic `_cleanup_expired_messages` loop at clock `now`
(messaging_service.py 304-318 with `_handle_expired_message_state`,
341-345), or a consumer pull in `get_messages` marking the entry Delivered
(messaging_service.py 243-245) — excluded for a non-consuming
recipient. -/
inductive EnvEvent
  | worker_fail
  | cleanup_tick (now : Nat)
  | consume
  deriving DecidableEq

/-- Effect of one event on the envelope's state entry. -/
def env_step (s : MsgState) : EnvEvent → MsgState
  | .worker_fail =>
    let s2 : MsgState := { s with attempts := s.attempts + 1 }
    if max_retry_attempts ≤ s2.attempts then { s2 with state := .failed }
    else s2
  | .cleanup_tick now =>
    if is_message_expired s now then { s with state := .expired } else s
  | .consume => { s with state := .delivered }

/-- The state entry `send_message` creates for an envelope submitted with
`timeout = 0` at clock 0 (messaging_service.py 176-181); note that
`timeout or self.MESSAGE_TIMEOUT` coerces the falsy 0 to 30. -/
def env0 : MsgState :=
  { state := .pending, attempts := 0, created_at := 0,
    timeout := py_or (some 0) message_timeout_default }

theorem env_step_not_delivered (s : MsgState) (e : EnvEvent)
    (hs : s.state ≠ MessageState.delivered) (he : e ≠ EnvEvent.consume) :
    (env_step s e).state ≠ MessageState.delivered := by
  cases e with
  | worker_fail =>
    simp only [env_step]
    split
    · simp
    · simpa using hs
  | cleanup_tick now =>
    simp only [env_step]
    split
    · simp
    · simpa using hs
  | consume => exact absurd rfl he

theorem env_fold_not_delivered (evs : List EnvEvent) (s : MsgState)
    (hs : s.state ≠ MessageState.delivered)
    (hev : EnvEvent.consume ∉ evs) :
    (evs.foldl env_step s).state ≠ MessageState.delivered := by
  induction evs generalizing s with
  | nil => simpa using hs
  | cons e rest ih =>
    have he : e ≠ EnvEvent.consume := by
      intro hcon
      exact hev (by simp [hcon])
    have hrest : EnvEvent.consume ∉ rest := by
      intro hmem
      exact hev (List.mem_cons_of_mem e hmem)
    simpa [List.foldl_cons] using
      ih (env_step s e) (env_step_not_delivered s e hs he) hrest

theorem env_fold_fixed_fields (evs : List EnvEvent) (s : MsgState) :
    (evs.foldl env_step s).created_at = s.created_at ∧
      (evs.foldl env_step s).timeout = s.timeout := by
  induction evs generalizing s with
  | nil => simp
  | cons e rest ih =>
    have hstep : (env_step s e).created_at = s.created_at ∧
        (env_step s e).timeout = s.timeout := by
      cases e with
      | worker_fail =>
        simp only [env_step]
        split <;> simp
      | cleanup_tick now =>
        simp only [env_step]
        split <;> simp
      | consume => simp [env_step]
    refine ⟨?_, ?_⟩
    · rw [List.foldl_cons, (ih (env_step s e)).1, hstep.1]
    · rw [List.foldl_cons, (ih (env_step s e)).2, hstep.2]

/-- Claim C6: an envelope submitted with `timeout = 0` to a recipient that
never consumes it is never Delivered at any point of any trace of the
events the service can apply to its entry, and any cleanup sweep at a
clock past its stored timeout leaves it Expired — the
`_cleanup_expired_messages` loop runs every 60 seconds forever, so such a
sweep eventually occurs.  (The code coerces the requested `timeout = 0` to
30 seconds via `timeout or MESSAGE_TIMEOUT`, so expiry happens after 30
seconds rather than immediately; the claimed end state is unchanged.) -/
theorem timeout_zero_expires_never_delivered (pre suf : List EnvEvent)
    (t : Nat) (hev : EnvEvent.consume ∉ pre ++ suf) (ht : 30 < t) :
    ((pre.foldl env_step env0).state ≠ MessageState.delivered) ∧
      (env_step ((pre ++ suf).foldl env_step env0)
          (EnvEvent.cleanup_tick t)).state = MessageState.expired := by
  have hpre : EnvEvent.consume ∉ pre := fun h =>
    hev (List.mem_append_left suf h)
  refine ⟨env_fold_not_delivered pre env0 (by simp [env0]) hpre, ?_⟩
  have hf := env_fold_fixed_fields (pre ++ suf) env0
  have hcond :
      is_message_expired ((pre ++ suf).foldl env_step env0) t = true := by
    unfold is_message_expired
    rw [hf.1, hf.2]
    have h1 : env0.timeout = 30 := rfl
    have h2 : env0.created_at = 0 := rfl
    rw [h1, h2]
    simp only [decide_eq_true_eq]
    omega
  simp only [env_step, hcond, eq_self_iff_true, if_true]

theorem timeout_zero_expires_never_delivered_witness :
    (EnvEvent.consume ∉
        [EnvEvent.worker_fail] ++ [EnvEvent.cleanup_tick 10]) ∧
      30 < 31 ∧
      ((([EnvEvent.worker_fail]).foldl env_step env0).state ≠
          MessageState.delivered ∧
        (env_step
            (([EnvEvent.worker_fail] ++
              [EnvEvent.cleanup_tick 10]).foldl env_step env0)
            (EnvEvent.cleanup_tick 31)).state = MessageState.expired) :=
  ⟨by decide, by decide,
    timeout_zero_expires_never_delivered [EnvEvent.worker_fail]
      [EnvEvent.cleanup_tick 10] 31 (by decide) (by decide)⟩

end Void.Messaging

namespace Void.AIConv

/-- `ConversationStatus` (conversation.py 9-14). -/
inductive ConversationStatus
  | active
  | paused
  | ended
  | error
  deriving DecidableEq

/-- A conversation message (`Message` TypedDict, conversation.py 17-25);
timestamps and metadata are outside the embedding. -/
structure ConvMessage where
  id : String
  conversation_id : String
  content : String
  sender_id : String
  processed : Bool
  deriving DecidableEq

/-- The `Conversation` TypedDict (conversation.py 28-37), with timestamps
as naturals and metadata outside the embedding. -/
structure Conversation where
  id : String
  terminal1_id : String
  terminal2_id : String
  start_time : Nat
  last_activity : Nat
  status : ConversationStatus
  messages : List ConvMessage
  deriving DecidableEq

/-- A runtime Python dict key: the `Conversation` TypedDict is a plain
dict, and a subscript accepts any hashable key — in particular the tuple
key `('terminal1_id', conversation['terminal2_id'])` that `add_message`
builds at conversation.py line 174. -/
inductive PyKey
  | s (v : String)
  | pair (a b : String)
  deriving DecidableEq

/-- A value stored under one of the conversation dict's keys. -/
inductive PyVal
  | vStr (v : String)
  | vTime (t : Nat)
  | vStatus (st : ConversationStatus)
  | vMsgs (l : List ConvMessage)
  | vMeta
  deriving DecidableEq

/-- String-keyed lookup in the conversation dict: the dict built at
conversation.py 108-117 holds exactly these eight field names. -/
def Conversation.getStrKey (c : Conversation) : String → Option PyVal
  | "id" => some (.vStr c.id)
  | "terminal1_id" => some (.vStr c.terminal1_id)
  | "terminal2_id" => some (.vStr c.terminal2_id)
  | "start_time" => some (.vTime c.start_time)
  | "last_activity" => some (.vTime c.last_activity)
  | "status" => some (.vStatus c.status)
  | "messages" => some (.vMsgs c.messages)
  | "metadata" => some (.vMeta)
  | _ => none

/-- Runtime subscript `conversation[k]` (`dict.__getitem__`): a missing
key — every tuple key included — raises `KeyError`, modelled as `none`. -/
def Conversation.getKey (c : Conversation) : PyKey → Option PyVal
  | .s k => c.getStrKey k
  | .pair _ _ => none

/-- Python membership `sender_id in container` on a conversation-dict
value (substring test on a string, element test on a message list).  Only
reachable through the tuple-key subscript, which never succeeds. -/
def py_val_contains (sender : String) : PyVal → Bool
  | .vStr v => (v.splitOn sender).length > 1
  | .vMsgs _ => false
  | _ => false

/-- The slice of `ConversationManager` state (conversation.py 62-73) that
`add_message` touches: the active-conversation map and the configured
per-conversation `message_limit` (default 1000). -/
structure MgrState where
  active_conversations : List (String × Conversation)
  message_limit : Nat
  deriving DecidableEq

/-- The generated message id `f"msg-{len(messages)}-{timestamp}"`
(conversation.py 179). -/
def message_id_of (conv : Conversation) (now : Nat) : String :=
  "msg-" ++ toString conv.messages.length ++ "-" ++ toString now

/-- `ConversationManager.add_message` (conversation.py 138-199) at clock
`now`, threading the manager state and returning it with the result: the
generated message id on success, or the `ConversationError` the method
raises (every internal exception is caught at lines 197-199 and re-raised
as `ConversationError`).  The sender-membership check at line 174
subscripts the conversation dict with the tuple key
`('terminal1_id', conversation['terminal2_id'])`; the dict holds only the
eight string field keys, so the subscript raises `KeyError` before the
message is built or appended (lines 178-190). -/
def add_message (st : MgrState) (conversation_id content sender_id : String)
    (now : Nat) : MgrState × Except String String :=
  match alist_lookup st.active_conversations conversation_id with
  | none => (st, .error ("Failed to add message: Conversation not found"))
  | some conv =>
    if conv.status ≠ ConversationStatus.active then
      (st, .error ("Failed to add message: conversation is not active"))
    else if st.message_limit ≤ conv.messages.length then
      (st, .error ("Failed to add message: Message limit reached for conversation"))
    else
      match conv.getKey (PyKey.s ("terminal2_id")) with
      | some (PyVal.vStr t2) =>
        match conv.getKey (PyKey.pair ("terminal1_id") t2) with
        | none => (st, .error ("Failed to add message: KeyError"))
        | some container =>
          if py_val_contains sender_id container = false then
            (st, .error ("Failed to add message: Sender is not part of the conversation"))
          else
            let msg : ConvMessage :=
              { id := message_id_of conv now
                conversation_id := conversation_id
                content := content
                sender_id := sender_id
                processed := false }
            let conv2 : Conversation :=
              { conv with
                messages := conv.messages ++ [msg]
                last_activity := now }
            ({ st with active_conversations :=
                alist_update st.active_conversations conversation_id conv2 },
              .ok msg.id)
      | _ => (st, .error ("Failed to add message: KeyError"))

/-- Claim C9: for every manager state holding the target conversation
active and below its message limit, `add_message` raises
`ConversationError` for every sender — the conversation's own participants
included — and returns the manager state unchanged (so the conversation's
message list is unchanged): the tuple-key subscript at conversation.py 174
raises `KeyError` before the append at line 189. -/
theorem add_message_always_errors (st : MgrState)
    (cid content sender : String) (now : Nat) (conv : Conversation)
    (hconv : alist_lookup st.active_conversations cid = some conv)
    (hactive : conv.status = ConversationStatus.active)
    (hroom : conv.messages.length < st.message_limit) :
    add_message st cid content sender now =
      (st, Except.error ("Failed to add message: KeyError")) := by
  unfold add_message
  rw [hconv]
  have hroom2 : ¬ st.message_limit ≤ conv.messages.length := by omega
  simp [hactive, hroom2, Conversation.getKey, Conversation.getStrKey]

/-- Concrete active, empty conversation between terminals t1 and t2. -/
def demo_conv : Conversation :=
  { id := "c1"
    terminal1_id := "t1"
    terminal2_id := "t2"
    start_time := 0
    last_activity := 0
    status := .active
    messages := [] }

/-- Manager state holding just `demo_conv`, with the default limit. -/
def demo_mgr : MgrState :=
  { active_conversations := [(demo_conv.id, demo_conv)]
    message_limit := 1000 }

theorem add_message_always_errors_witness :
    alist_lookup demo_mgr.active_conversations ("c1") = some demo_conv ∧
      demo_conv.status = ConversationStatus.active ∧
      demo_conv.messages.length < demo_mgr.message_limit ∧
      add_message demo_mgr ("c1") ("hello") ("t1") 5 =
        (demo_mgr, Except.error ("Failed to add message: KeyError")) :=
  ⟨by decide, by decide, by decide,
    add_message_always_errors demo_mgr ("c1") ("hello") ("t1") 5 demo_conv
      (by decide) (by decide) (by decide)⟩

end Void.AIConv
